import Mathlib

/-!
Verification of the PTY session manager in
`src/manager-tauri/src-tauri/src/lib.rs` (alacrittyPro).

The development shallowly embeds the session-manager core: the base64
channel encoder used by the reader pump, the command builder, the
session registry (a `HashMap<String, PtySession>` behind a mutex), and
the four operations `spawn_pty`, `write_pty`, `resize_pty`, `close_pty`.
Bytes are `Nat` values below 256; OS handles are `Nat` identifiers;
fallible OS calls are driven by explicit "world" records carrying the
outcome of each call; the observable actions of an operation are
recorded as an explicit effect trace in source order.
-/

/-- The standard base64 alphabet used by `base64::engine::general_purpose::STANDARD`. -/
def b64Alphabet : List Char :=
  "ABCDEFGHIJKLMNOPQRSTUVWXYZabcdefghijklmnopqrstuvwxyz0123456789+/".toList

/-- The character the encoder emits for a 6-bit group. -/
def sextetToChar (n : Nat) : Char :=
  b64Alphabet.getD n '?'

/-- Index of a character in the base64 alphabet (inverse of `sextetToChar`). -/
def charToSextet (c : Char) : Nat :=
  b64Alphabet.findIdx (fun x => x == c)

/-- Base64 encoding of a byte list, three bytes to four characters, with
`=` padding — the mapping computed by `engine.encode(&buf[..n])` at
src/manager-tauri/src-tauri/src/lib.rs:289. -/
def b64EncodeBytes : List Nat → List Char
  | [] => []
  | [a] =>
      [sextetToChar (a / 4), sextetToChar (a % 4 * 16), '=', '=']
  | [a, b] =>
      [sextetToChar (a / 4), sextetToChar (a % 4 * 16 + b / 16),
       sextetToChar (b % 16 * 4), '=']
  | a :: b :: c :: rest =>
      sextetToChar (a / 4) :: sextetToChar (a % 4 * 16 + b / 16) ::
      sextetToChar (b % 16 * 4 + c / 64) :: sextetToChar (c % 64) ::
      b64EncodeBytes rest

/-- Modelled from the spec: the decoder is not part of `src/` (it lives in
the consumer of the events); per §4.4 it is the exact inverse of the
standard reversible binary-to-text mapping, i.e. standard base64 decoding
with `=` padding terminating the final quantum. -/
def b64DecodeChars : List Char → List Nat
  | a :: b :: c :: d :: rest =>
      if c = '=' then
        [charToSextet a * 4 + charToSextet b / 16]
      else if d = '=' then
        [charToSextet a * 4 + charToSextet b / 16,
         charToSextet b % 16 * 16 + charToSextet c / 4]
      else
        (charToSextet a * 4 + charToSextet b / 16) ::
        (charToSextet b % 16 * 16 + charToSextet c / 4) ::
        (charToSextet c % 4 * 64 + charToSextet d) ::
        b64DecodeChars rest
  | _ => []

/-- `encode(bytes) -> text`, as the reader pump emits it. -/
def b64Encode (bytes : List Nat) : String :=
  String.mk (b64EncodeBytes bytes)

/-- `decode(text) -> bytes`, the inverse direction of the channel encoder. -/
def b64Decode (s : String) : List Nat :=
  b64DecodeChars s.data

theorem sextet_roundtrip : ∀ n < 64, charToSextet (sextetToChar n) = n := by
  decide

theorem sextet_ne_pad (n : Nat) : sextetToChar n ≠ '=' := by
  by_cases h : n < 64
  · revert n h
    decide
  · have hlen : b64Alphabet.length ≤ n := by
      have : b64Alphabet.length = 64 := by decide
      omega
    unfold sextetToChar
    rw [List.getD_eq_default _ _ hlen]
    decide

theorem b64_bytes_roundtrip :
    ∀ (l : List Nat), (∀ x ∈ l, x < 256) → b64DecodeChars (b64EncodeBytes l) = l
  | [], _ => rfl
  | [a], h => by
      have ha : a < 256 := h a (by simp)
      simp only [b64EncodeBytes, b64DecodeChars, if_pos rfl]
      rw [sextet_roundtrip (a / 4) (by omega),
          sextet_roundtrip (a % 4 * 16) (by omega)]
      simp
      omega
  | [a, b], h => by
      have ha : a < 256 := h a (by simp)
      have hb : b < 256 := h b (by simp)
      simp only [b64EncodeBytes, b64DecodeChars,
        if_neg (sextet_ne_pad (b % 16 * 4)), if_pos rfl]
      rw [sextet_roundtrip (a / 4) (by omega),
          sextet_roundtrip (a % 4 * 16 + b / 16) (by omega),
          sextet_roundtrip (b % 16 * 4) (by omega)]
      simp
      omega
  | a :: b :: c :: rest, h => by
      have ha : a < 256 := h a (by simp)
      have hb : b < 256 := h b (by simp)
      have hc : c < 256 := h c (by simp)
      have htl : ∀ x ∈ rest, x < 256 := by
        intro x hx
        exact h x (by simp [hx])
      simp only [b64EncodeBytes, b64DecodeChars,
        if_neg (sextet_ne_pad (b % 16 * 4 + c / 64)),
        if_neg (sextet_ne_pad (c % 64))]
      rw [sextet_roundtrip (a / 4) (by omega),
          sextet_roundtrip (a % 4 * 16 + b / 16) (by omega),
          sextet_roundtrip (b % 16 * 4 + c / 64) (by omega),
          sextet_roundtrip (c % 64) (by omega)]
      have h1 : a / 4 * 4 + (a % 4 * 16 + b / 16) / 16 = a := by omega
      have h2 : (a % 4 * 16 + b / 16) % 16 * 16 + (b % 16 * 4 + c / 64) / 4 = b := by omega
      have h3 : (b % 16 * 4 + c / 64) % 4 * 64 + c % 64 = c := by omega
      rw [h1, h2, h3, b64_bytes_roundtrip rest htl]

/-- Claim C2: for every byte sequence `b`, decoding the encoder's output
yields `b` back: `b64Decode (b64Encode b) = b`, where `b64Encode` is the
channel encoder used by the reader pump and `b64Decode` its inverse. -/
theorem C2_encoder_roundtrip (b : List Nat) (h : ∀ x ∈ b, x < 256) :
    b64Decode (b64Encode b) = b :=
  b64_bytes_roundtrip b h

theorem C2_encoder_roundtrip_witness :
    (∀ x ∈ [0, 104, 105, 10, 255, 128], x < 256) ∧
    b64Decode (b64Encode [0, 104, 105, 10, 255, 128]) = [0, 104, 105, 10, 255, 128] :=
  ⟨by decide, C2_encoder_roundtrip [0, 104, 105, 10, 255, 128] (by decide)⟩

/-! ## Data model: profiles, commands, sessions, registry -/

/-- A connection profile as stored by the profile store
(`ServerProfile`, src/manager-tauri/src-tauri/src/lib.rs:16-28).
`lastUsedAt` timestamps are abstracted to `Nat`. -/
structure ServerProfile where
  id : String
  name : String
  host : String
  user : Option String
  port : Option Nat
  password : Option String
  tags : List String
  favorite : Bool
  lastUsedAt : Option Nat
  deriving DecidableEq

/-- The program a PTY command runs: `CommandBuilder::new_default_prog()`
(the platform default interactive shell, resolved at spawn time) or a
named program (`CommandBuilder::new(name)`). -/
inductive Program where
  | defaultShell
  | named (name : String)
  deriving DecidableEq

/-- A command to run inside the PTY: program, argv tokens in order, and
environment entries. -/
structure CmdSpec where
  prog : Program
  args : List String
  env : List (String × String)
  deriving DecidableEq

/-- The ssh target string, `user@host` or bare `host`
(src/manager-tauri/src-tauri/src/lib.rs:192-195). -/
def targetOf (p : ServerProfile) : String :=
  match p.user with
  | some user => user ++ "@" ++ p.host
  | none => p.host

/-- The remote-login command built for a profile
(src/manager-tauri/src-tauri/src/lib.rs:196-217): with a password,
`sshpass -p <password> ssh -o StrictHostKeyChecking=no -p <port> <target>`;
without, `ssh -o StrictHostKeyChecking=no -p <port> <target>`.
Every argument is its own argv token. -/
def buildProfileCommand (p : ServerProfile) : CmdSpec :=
  let portStr := toString (p.port.getD 22)
  match p.password with
  | some password =>
      { prog := .named "sshpass",
        args := ["-p", password, "ssh", "-o", "StrictHostKeyChecking=no",
                 "-p", portStr, targetOf p],
        env := [] }
  | none =>
      { prog := .named "ssh",
        args := ["-o", "StrictHostKeyChecking=no", "-p", portStr, targetOf p],
        env := [] }

/-- The command for an optional profile: remote login when a profile is
given, otherwise the platform default shell with no arguments
(src/manager-tauri/src-tauri/src/lib.rs:183-223). -/
def buildCommand (profile : Option ServerProfile) : CmdSpec :=
  match profile with
  | some p => buildProfileCommand p
  | none => { prog := .defaultShell, args := [], env := [] }

/-- `cmd.env("TERM", "xterm-256color")`
(src/manager-tauri/src-tauri/src/lib.rs:227), applied to every command. -/
def withTerm (c : CmdSpec) : CmdSpec :=
  { c with env := c.env ++ [("TERM", "xterm-256color")] }

/-- Update `last_used_at` of the first profile with the given id
(src/manager-tauri/src-tauri/src/lib.rs:185-190). -/
def touchProfile (now : Nat) (pid : String) : List ServerProfile → List ServerProfile
  | [] => []
  | p :: rest =>
      if p.id = pid then { p with lastUsedAt := some now } :: rest
      else p :: touchProfile now pid rest

/-- The command-resolution stage of `spawn_pty`
(src/manager-tauri/src-tauri/src/lib.rs:183-227): look up the profile when
an id is given (failing with "Profile not found" when absent), stamp its
`last_used_at`, build the command, and set `TERM`. Returns the command and
the updated profile list. -/
def resolveCommand (now : Nat) (profiles : List ServerProfile)
    (profileId : Option String) :
    Except String (CmdSpec × List ServerProfile) :=
  match profileId with
  | some pid =>
      match profiles.find? (fun p => p.id == pid) with
      | none => .error "Profile not found"
      | some p =>
          .ok (withTerm (buildProfileCommand p), touchProfile now pid profiles)
  | none => .ok (withTerm (buildCommand none), profiles)

/-- A registry entry (`PtySession`, src/manager-tauri/src-tauri/src/lib.rs:37-40):
the PTY master handle and the writer handle taken from it. Handles are
opaque `Nat` identifiers. The struct holds no child-process handle. -/
structure PtySession where
  master : Nat
  writer : Nat
  deriving DecidableEq

/-- The session registry: the `HashMap<String, PtySession>` behind
`AppState.pty_sessions` (src/manager-tauri/src-tauri/src/lib.rs:45),
modelled as an association list with at most one binding per key. -/
abbrev Registry := List (String × PtySession)

/-- `HashMap::get` — the first binding of the key, if any. -/
def regLookup (id : String) : Registry → Option PtySession
  | [] => none
  | (k, s) :: rest => if k = id then some s else regLookup id rest

/-- `HashMap::remove` — drop every binding of the key. -/
def regErase (id : String) : Registry → Registry
  | [] => []
  | (k, s) :: rest =>
      if k = id then regErase id rest else (k, s) :: regErase id rest

/-- `HashMap::insert` — bind the key to the new session, replacing any
previous binding. -/
def regInsert (id : String) (s : PtySession) (r : Registry) : Registry :=
  (id, s) :: regErase id r

/-- Observable actions of an operation, recorded in source order.
`lockAcquire`/`lockRelease` delimit the span during which the
`pty_sessions` mutex guard is held. -/
inductive Effect where
  | lockAcquire
  | lockRelease
  | openPtyCall (rows cols : Nat)
  | spawnChildCall
  | dropSlave
  | dropChild
  | registryInsert (id : String)
  | registryRemove (id : String)
  | startReader (id : String)
  | writeAll (writerHandle : Nat) (data : String)
  | flushWriter (writerHandle : Nat)
  | resizeCall (masterHandle : Nat) (rows cols : Nat)
  deriving DecidableEq

/-- Outcomes of the fallible OS calls made by `spawn_pty`, and the handle
identifiers the OS hands out. `none` means the call succeeds; `some e`
carries the OS error text. -/
structure SpawnWorld where
  openptyErr : Option String
  spawnErr : Option String
  cloneReaderErr : Option String
  takeWriterErr : Option String
  masterHandle : Nat
  writerHandle : Nat
  childHandle : Nat
  now : Nat
  deriving DecidableEq

/-- Result of an `open` request: operation result, updated profile store,
updated registry, and the effect trace. -/
structure SpawnOutcome where
  result : Except String Unit
  profiles : List ServerProfile
  registry : Registry
  effects : List Effect

/-- `spawn_pty` (src/manager-tauri/src-tauri/src/lib.rs:175-301): resolve
the command; open a PTY at 24 rows by 80 columns; spawn the child on the
slave side; drop the slave in the parent; clone a reader and take the
writer from the master; insert the session into the registry under the
exclusive lock; start the reader thread. The child handle (`_child`) is
dropped when the function returns on every path past the spawn. The
registry is never read, only inserted into. -/
def spawnPty (w : SpawnWorld) (profiles : List ServerProfile) (registry : Registry)
    (sessionId : String) (profileId : Option String) : SpawnOutcome :=
  match resolveCommand w.now profiles profileId with
  | .error e => ⟨.error e, profiles, registry, []⟩
  | .ok (_cmd, profiles') =>
    match w.openptyErr with
    | some e =>
        ⟨.error ("Failed to open PTY: " ++ e), profiles', registry,
         [.openPtyCall 24 80]⟩
    | none =>
      match w.spawnErr with
      | some e =>
          ⟨.error ("Failed to spawn command: " ++ e), profiles', registry,
           [.openPtyCall 24 80, .spawnChildCall]⟩
      | none =>
        match w.cloneReaderErr with
        | some e =>
            ⟨.error ("Failed to clone PTY reader: " ++ e), profiles', registry,
             [.openPtyCall 24 80, .spawnChildCall, .dropSlave, .dropChild]⟩
        | none =>
          match w.takeWriterErr with
          | some e =>
              ⟨.error ("Failed to get PTY writer: " ++ e), profiles', registry,
               [.openPtyCall 24 80, .spawnChildCall, .dropSlave, .dropChild]⟩
          | none =>
              ⟨.ok (),
               profiles',
               regInsert sessionId ⟨w.masterHandle, w.writerHandle⟩ registry,
               [.openPtyCall 24 80, .spawnChildCall, .dropSlave,
                .lockAcquire, .registryInsert sessionId, .lockRelease,
                .startReader sessionId, .dropChild]⟩

/-- Outcomes of the write/flush calls made by `write_pty`. -/
structure WriteWorld where
  writeErr : Option String
  flushErr : Option String
  deriving DecidableEq

/-- Result of a write, resize, or close request. -/
structure OpOutcome where
  result : Except String Unit
  registry : Registry
  effects : List Effect

/-- `write_pty` (src/manager-tauri/src-tauri/src/lib.rs:303-321): lock the
registry, look up the session ("Session not found" when absent),
`write_all` the data's bytes to the session's writer, then `flush` it.
The mutex guard lives until the function returns, so the lock is released
after the I/O calls on every path. The registry contents are never
modified. -/
def writePty (w : WriteWorld) (registry : Registry) (sessionId data : String) :
    OpOutcome :=
  match regLookup sessionId registry with
  | none => ⟨.error "Session not found", registry, [.lockAcquire, .lockRelease]⟩
  | some s =>
    match w.writeErr with
    | some e =>
        ⟨.error ("Write failed: " ++ e), registry,
         [.lockAcquire, .writeAll s.writer data, .lockRelease]⟩
    | none =>
      match w.flushErr with
      | some e =>
          ⟨.error ("Flush failed: " ++ e), registry,
           [.lockAcquire, .writeAll s.writer data, .flushWriter s.writer,
            .lockRelease]⟩
      | none =>
          ⟨.ok (), registry,
           [.lockAcquire, .writeAll s.writer data, .flushWriter s.writer,
            .lockRelease]⟩

/-- `resize_pty` (src/manager-tauri/src-tauri/src/lib.rs:323-345): lock the
registry, look up the session, call `resize` on the master with the
requested geometry. The guard again lives until return. -/
def resizePty (resizeErr : Option String) (registry : Registry)
    (sessionId : String) (rows cols : Nat) : OpOutcome :=
  match regLookup sessionId registry with
  | none => ⟨.error "Session not found", registry, [.lockAcquire, .lockRelease]⟩
  | some s =>
    match resizeErr with
    | some e =>
        ⟨.error ("Resize failed: " ++ e), registry,
         [.lockAcquire, .resizeCall s.master rows cols, .lockRelease]⟩
    | none =>
        ⟨.ok (), registry,
         [.lockAcquire, .resizeCall s.master rows cols, .lockRelease]⟩

/-- `close_pty` (src/manager-tauri/src-tauri/src/lib.rs:347-355): lock the
registry and remove the entry, if any; always returns `Ok(())`. -/
def closePty (registry : Registry) (sessionId : String) : OpOutcome :=
  ⟨.ok (), regErase sessionId registry,
   [.lockAcquire, .registryRemove sessionId, .lockRelease]⟩

/-! ## Reader pump -/

/-- One result of `reader.read(&mut buf)`: a chunk of bytes (`Ok(n)` with
`n > 0`), end-of-stream (`Ok(0)`), or a read error (`Err(_)`). -/
inductive ReadResult where
  | chunk (bytes : List Nat)
  | eof
  | fail
  deriving DecidableEq

/-- An event emitted toward the consumer, tagged with the session id:
`pty-output-<sid>` carrying the encoded chunk, or `pty-exit-<sid>`. -/
inductive PtyEvent where
  | output (sessionId : String) (payload : String)
  | exit (sessionId : String)
  deriving DecidableEq

/-- The reader-thread loop (src/manager-tauri/src-tauri/src/lib.rs:278-298)
applied to the sequence of read results the channel produces: each chunk
is base64-encoded and emitted as an output event; the first end-of-stream
or read error emits a single exit event and stops the loop. -/
def readerPump (sid : String) : List ReadResult → List PtyEvent
  | [] => []
  | .chunk bs :: rest => .output sid (b64Encode bs) :: readerPump sid rest
  | .eof :: _ => [.exit sid]
  | .fail :: _ => [.exit sid]

/-- Whether an effect is a blocking OS I/O call on a channel. -/
def ioEffect : Effect → Bool
  | .writeAll _ _ => true
  | .flushWriter _ => true
  | .resizeCall _ _ _ => true
  | _ => false

/-- Helper for `ioUnderLock`: scan the trace tracking whether the registry
lock is currently held. -/
def ioUnderLockGo (held : Bool) : List Effect → Bool
  | [] => false
  | .lockAcquire :: rest => ioUnderLockGo true rest
  | .lockRelease :: rest => ioUnderLockGo false rest
  | e :: rest => (held && ioEffect e) || ioUnderLockGo held rest

/-- True when some blocking channel I/O call in the trace happens while
the exclusive registry lock is held. -/
def ioUnderLock (trace : List Effect) : Bool :=
  ioUnderLockGo false trace

/-- The OS handles a registry entry holds for the channel's lifetime. -/
def ownedHandles (s : PtySession) : List Nat :=
  [s.master, s.writer]

/-! ## Registry lemmas -/

theorem regLookup_erase_self (id : String) (r : Registry) :
    regLookup id (regErase id r) = none := by
  induction r with
  | nil => rfl
  | cons e rest ih =>
      obtain ⟨k, s⟩ := e
      by_cases h : k = id <;> simp [regErase, regLookup, h, ih]

theorem regErase_idem (id : String) (r : Registry) :
    regErase id (regErase id r) = regErase id r := by
  induction r with
  | nil => rfl
  | cons e rest ih =>
      obtain ⟨k, s⟩ := e
      by_cases h : k = id <;> simp [regErase, h, ih]

theorem writePty_registry_eq (w : WriteWorld) (r : Registry) (id data : String) :
    (writePty w r id data).registry = r := by
  cases h : regLookup id r with
  | none => simp [writePty, h]
  | some s =>
      cases hw : w.writeErr with
      | some e => simp [writePty, h, hw]
      | none =>
          cases hf : w.flushErr with
          | some e => simp [writePty, h, hw, hf]
          | none => simp [writePty, h, hw, hf]

theorem resizePty_registry_eq (re : Option String) (r : Registry)
    (id : String) (rows cols : Nat) :
    (resizePty re r id rows cols).registry = r := by
  cases h : regLookup id r with
  | none => simp [resizePty, h]
  | some s =>
      cases hre : re with
      | some e => simp [resizePty, h, hre]
      | none => simp [resizePty, h, hre]

/-! ## Claim theorems -/

/-- Claim C1: if the channel yields chunks `c1, …, cn` and then
end-of-stream or a read error, the reader pump emits exactly
`output(c1), …, output(cn), exit` in that order; exactly one exit event
is emitted and it is last. -/
theorem C1_reader_pump_sequence (sid : String) (cs : List (List Nat))
    (tail : List ReadResult) :
    readerPump sid (cs.map ReadResult.chunk ++ ReadResult.eof :: tail) =
      cs.map (fun c => PtyEvent.output sid (b64Encode c)) ++ [PtyEvent.exit sid] ∧
    readerPump sid (cs.map ReadResult.chunk ++ ReadResult.fail :: tail) =
      cs.map (fun c => PtyEvent.output sid (b64Encode c)) ++ [PtyEvent.exit sid] ∧
    (cs.map (fun c => PtyEvent.output sid (b64Encode c)) ++
      [PtyEvent.exit sid]).count (PtyEvent.exit sid) = 1 ∧
    (cs.map (fun c => PtyEvent.output sid (b64Encode c)) ++
      [PtyEvent.exit sid]).getLast? = some (PtyEvent.exit sid) := by
  refine ⟨?_, ?_, ?_, ?_⟩
  · induction cs with
    | nil => simp [readerPump]
    | cons c rest ih => simp [readerPump, ih]
  · induction cs with
    | nil => simp [readerPump]
    | cons c rest ih => simp [readerPump, ih]
  · induction cs with
    | nil => simp [List.count_cons]
    | cons c rest ih => simpa [List.count_cons] using ih
  · rw [List.getLast?_append_cons]
    rfl

/-- Claim C5: `close` always succeeds and is idempotent — for every
identifier it returns success, removes the registry entry if present,
and a second close succeeds and leaves the registry unchanged. -/
theorem C5_close_idempotent (r : Registry) (id : String) :
    (closePty r id).result = .ok () ∧
    regLookup id (closePty r id).registry = none ∧
    (closePty (closePty r id).registry id).result = .ok () ∧
    (closePty (closePty r id).registry id).registry = (closePty r id).registry := by
  refine ⟨rfl, ?_, rfl, ?_⟩
  · simpa [closePty] using regLookup_erase_self id r
  · simpa [closePty] using regErase_idem id r

/-- Claim C10: when the supplied profile id is not in the profile store,
`open` fails with a profile-not-found error before any PTY work: the
result is the error, the registry is unchanged, and the effect trace is
empty (no PTY allocation, no registry insert, no reader started, no
events emitted for the session). -/
theorem C10_profile_not_found (w : SpawnWorld) (profiles : List ServerProfile)
    (r : Registry) (sid pid : String)
    (h : profiles.find? (fun p => p.id == pid) = none) :
    (spawnPty w profiles r sid (some pid)).result = .error "Profile not found" ∧
    (spawnPty w profiles r sid (some pid)).registry = r ∧
    (spawnPty w profiles r sid (some pid)).profiles = profiles ∧
    (spawnPty w profiles r sid (some pid)).effects = [] := by
  simp [spawnPty, resolveCommand, h]

theorem C10_profile_not_found_witness :
    ([] : List ServerProfile).find? (fun p => p.id == "p1") = none ∧
    (spawnPty ⟨none, none, none, none, 0, 1, 2, 0⟩ [] [] "s1" (some "p1")).result =
      .error "Profile not found" ∧
    (spawnPty ⟨none, none, none, none, 0, 1, 2, 0⟩ [] [] "s1" (some "p1")).effects = [] := by
  have h := C10_profile_not_found ⟨none, none, none, none, 0, 1, 2, 0⟩ [] [] "s1" "p1" rfl
  exact ⟨rfl, h.1, h.2.2.2⟩

/-- Claim C7: the command builder yields the platform default shell with
no arguments when no target is given; `ssh -o StrictHostKeyChecking=no
-p <port> <user@>host` as discrete argv tokens for a target without
password; `sshpass -p <password>` followed by the same discrete ssh
tokens for a target with password; and the environment always contains
`TERM=xterm-256color`. -/
theorem C7_command_builder (p : ServerProfile) (op : Option ServerProfile) :
    withTerm (buildCommand none) =
      { prog := .defaultShell, args := [], env := [("TERM", "xterm-256color")] } ∧
    (p.password = none →
      withTerm (buildCommand (some p)) =
        { prog := .named "ssh",
          args := ["-o", "StrictHostKeyChecking=no", "-p",
                   toString (p.port.getD 22), targetOf p],
          env := [("TERM", "xterm-256color")] }) ∧
    (∀ pw, p.password = some pw →
      withTerm (buildCommand (some p)) =
        { prog := .named "sshpass",
          args := ["-p", pw, "ssh", "-o", "StrictHostKeyChecking=no", "-p",
                   toString (p.port.getD 22), targetOf p],
          env := [("TERM", "xterm-256color")] }) ∧
    ("TERM", "xterm-256color") ∈ (withTerm (buildCommand op)).env := by
  refine ⟨rfl, ?_, ?_, ?_⟩
  · intro hpw
    simp [buildCommand, buildProfileCommand, withTerm, hpw]
  · intro pw hpw
    simp [buildCommand, buildProfileCommand, withTerm, hpw]
  · cases op with
    | none => simp [buildCommand, withTerm]
    | some q =>
        cases hq : q.password <;>
          simp [buildCommand, buildProfileCommand, withTerm, hq]

theorem C7_command_builder_witness :
    withTerm (buildCommand (some ⟨"p1", "box", "example.com", some "root",
        some 2222, none, [], false, none⟩)) =
      { prog := .named "ssh",
        args := ["-o", "StrictHostKeyChecking=no", "-p", "2222", "root@example.com"],
        env := [("TERM", "xterm-256color")] } ∧
    withTerm (buildCommand (some ⟨"p1", "box", "example.com", some "root",
        some 2222, some "hunter2", [], false, none⟩)) =
      { prog := .named "sshpass",
        args := ["-p", "hunter2", "ssh", "-o", "StrictHostKeyChecking=no", "-p",
                 "2222", "root@example.com"],
        env := [("TERM", "xterm-256color")] } := by
  constructor
  · have h := (C7_command_builder ⟨"p1", "box", "example.com", some "root",
        some 2222, none, [], false, none⟩ none).2.1 rfl
    simpa [targetOf] using h
  · have h := ((C7_command_builder ⟨"p1", "box", "example.com", some "root",
        some 2222, some "hunter2", [], false, none⟩ none).2.2.1) "hunter2" rfl
    simpa [targetOf] using h

/-- Claim C3: `write(id, data)` fails with the session-not-found error
when `id` is absent; when present it writes all bytes to the channel's
writer and flushes; on a write or flush error it fails with an I/O
failure error while the registry entry stays in place in every case. -/
theorem C3_write_behavior (w : WriteWorld) (r : Registry) (id data : String) :
    (writePty w r id data).registry = r ∧
    (regLookup id r = none →
      (writePty w r id data).result = .error "Session not found") ∧
    (∀ s, regLookup id r = some s →
      regLookup id (writePty w r id data).registry = some s ∧
      (w.writeErr = none → w.flushErr = none →
        (writePty w r id data).result = .ok () ∧
        (writePty w r id data).effects =
          [.lockAcquire, .writeAll s.writer data, .flushWriter s.writer,
           .lockRelease]) ∧
      (∀ e, w.writeErr = some e →
        (writePty w r id data).result = .error ("Write failed: " ++ e)) ∧
      (w.writeErr = none → ∀ e, w.flushErr = some e →
        (writePty w r id data).result = .error ("Flush failed: " ++ e) ∧
        Effect.writeAll s.writer data ∈ (writePty w r id data).effects)) := by
  refine ⟨writePty_registry_eq w r id data, ?_, ?_⟩
  · intro hnone
    simp [writePty, hnone]
  · intro s hs
    refine ⟨by rw [writePty_registry_eq]; exact hs, ?_, ?_, ?_⟩
    · intro hw hf
      simp [writePty, hs, hw, hf]
    · intro e hw
      simp [writePty, hs, hw]
    · intro hw e hf
      simp [writePty, hs, hw, hf]

theorem C3_write_behavior_witness :
    (writePty ⟨none, none⟩ [("s1", ⟨0, 1⟩)] "s1" "ls\n").result = .ok () ∧
    (writePty ⟨none, none⟩ [("s1", ⟨0, 1⟩)] "s1" "ls\n").effects =
      [.lockAcquire, .writeAll 1 "ls\n", .flushWriter 1, .lockRelease] ∧
    (writePty ⟨none, none⟩ [] "s1" "ls\n").result = .error "Session not found" ∧
    (writePty ⟨some "broken pipe", none⟩ [("s1", ⟨0, 1⟩)] "s1" "ls\n").result =
      .error "Write failed: broken pipe" := by
  have h1 := ((C3_write_behavior ⟨none, none⟩ [("s1", ⟨0, 1⟩)] "s1" "ls\n").2.2
    ⟨0, 1⟩ (by decide)).2.1 rfl rfl
  have h2 := (C3_write_behavior ⟨none, none⟩ [] "s1" "ls\n").2.1 rfl
  have h3 := (((C3_write_behavior ⟨some "broken pipe", none⟩ [("s1", ⟨0, 1⟩)]
    "s1" "ls\n").2.2 ⟨0, 1⟩ (by decide)).2.2.1) "broken pipe" rfl
  exact ⟨h1.1, h1.2, h2, h3⟩

/-- Claim C4: `open` never checks whether the identifier is already
present: with an identifier already bound in the registry, a successful
re-open returns success, binds the identifier to the new channel
(replacing the old entry), performs no close of the old channel (the
trace contains no registry removal), and behaves identically — same
result, same effects — to opening against a registry without that
identifier. -/
theorem C4_reopen_replaces (w : SpawnWorld) (profiles : List ServerProfile)
    (r : Registry) (sid : String) (pid : Option String) (old : PtySession)
    (cmd : CmdSpec) (profiles' : List ServerProfile)
    (hold : regLookup sid r = some old)
    (hres : resolveCommand w.now profiles pid = .ok (cmd, profiles'))
    (h1 : w.openptyErr = none) (h2 : w.spawnErr = none)
    (h3 : w.cloneReaderErr = none) (h4 : w.takeWriterErr = none) :
    (spawnPty w profiles r sid pid).result = .ok () ∧
    regLookup sid (spawnPty w profiles r sid pid).registry =
      some ⟨w.masterHandle, w.writerHandle⟩ ∧
    (∀ id2, Effect.registryRemove id2 ∉ (spawnPty w profiles r sid pid).effects) ∧
    (spawnPty w profiles r sid pid).effects =
      (spawnPty w profiles (regErase sid r) sid pid).effects ∧
    (spawnPty w profiles r sid pid).result =
      (spawnPty w profiles (regErase sid r) sid pid).result := by
  simp [spawnPty, hres, h1, h2, h3, h4, regInsert, regLookup]

theorem C4_reopen_replaces_witness :
    (spawnPty ⟨none, none, none, none, 5, 6, 7, 0⟩ [] [("s1", ⟨0, 1⟩)]
      "s1" none).result = .ok () ∧
    regLookup "s1" (spawnPty ⟨none, none, none, none, 5, 6, 7, 0⟩ []
      [("s1", ⟨0, 1⟩)] "s1" none).registry = some ⟨5, 6⟩ := by
  have h := C4_reopen_replaces ⟨none, none, none, none, 5, 6, 7, 0⟩ []
    [("s1", ⟨0, 1⟩)] "s1" none ⟨0, 1⟩ (withTerm (buildCommand none)) []
    (by decide) rfl rfl rfl rfl rfl
  exact ⟨h.1, h.2.1⟩

/-- Claim C6: once the command is resolved, a PTY-allocation failure or a
child-spawn failure makes `open` fail synchronously with the registry
unchanged and no entry inserted; on success the PTY is opened at 24 rows
by 80 columns and the slave side is dropped immediately after the spawn,
before any further action. -/
theorem C6_spawn_failure_and_geometry (w : SpawnWorld)
    (profiles : List ServerProfile) (r : Registry) (sid : String)
    (pid : Option String) (cmd : CmdSpec) (profiles' : List ServerProfile)
    (hres : resolveCommand w.now profiles pid = .ok (cmd, profiles')) :
    (∀ e, w.openptyErr = some e →
      (spawnPty w profiles r sid pid).result =
        .error ("Failed to open PTY: " ++ e) ∧
      (spawnPty w profiles r sid pid).registry = r ∧
      (spawnPty w profiles r sid pid).effects = [.openPtyCall 24 80]) ∧
    (w.openptyErr = none → ∀ e, w.spawnErr = some e →
      (spawnPty w profiles r sid pid).result =
        .error ("Failed to spawn command: " ++ e) ∧
      (spawnPty w profiles r sid pid).registry = r ∧
      (spawnPty w profiles r sid pid).effects =
        [.openPtyCall 24 80, .spawnChildCall]) ∧
    (w.openptyErr = none → w.spawnErr = none → w.cloneReaderErr = none →
      w.takeWriterErr = none →
      (spawnPty w profiles r sid pid).result = .ok () ∧
      (spawnPty w profiles r sid pid).effects =
        [.openPtyCall 24 80, .spawnChildCall, .dropSlave, .lockAcquire,
         .registryInsert sid, .lockRelease, .startReader sid, .dropChild] ∧
      (spawnPty w profiles r sid pid).effects.take 3 =
        [.openPtyCall 24 80, .spawnChildCall, .dropSlave]) := by
  refine ⟨?_, ?_, ?_⟩
  · intro e he
    simp [spawnPty, hres, he]
  · intro h1 e he
    simp [spawnPty, hres, h1, he]
  · intro h1 h2 h3 h4
    simp [spawnPty, hres, h1, h2, h3, h4]

theorem C6_spawn_failure_and_geometry_witness :
    (spawnPty ⟨some "EMFILE", none, none, none, 0, 1, 2, 0⟩ [] [("s9", ⟨8, 9⟩)]
      "s1" none).result = .error "Failed to open PTY: EMFILE" ∧
    (spawnPty ⟨some "EMFILE", none, none, none, 0, 1, 2, 0⟩ [] [("s9", ⟨8, 9⟩)]
      "s1" none).registry = [("s9", ⟨8, 9⟩)] ∧
    (spawnPty ⟨none, none, none, none, 0, 1, 2, 0⟩ [] [] "s1" none).effects.take 3 =
      [.openPtyCall 24 80, .spawnChildCall, .dropSlave] := by
  have h1 := (C6_spawn_failure_and_geometry ⟨some "EMFILE", none, none, none,
    0, 1, 2, 0⟩ [] [("s9", ⟨8, 9⟩)] "s1" none (withTerm (buildCommand none))
    [] rfl).1 "EMFILE" rfl
  have h2 := (C6_spawn_failure_and_geometry ⟨none, none, none, none, 0, 1, 2, 0⟩
    [] [] "s1" none (withTerm (buildCommand none)) [] rfl).2.2 rfl rfl rfl rfl
  exact ⟨h1.1, h1.2.1, h2.2.2⟩

/-- Claim C8, counterexample: the claim says the registry lock is never
held across the blocking write/flush/resize I/O calls, i.e.
`ioUnderLock` of every write/resize trace is `false`. At this concrete
input — a registry holding session "s1" and a successful write and
resize — the I/O calls happen between `lockAcquire` and `lockRelease`,
so `ioUnderLock` is `true`: the mutex guard in `write_pty`/`resize_pty`
lives until the function returns. -/
theorem C8_lock_counterexample :
    ioUnderLock (writePty ⟨none, none⟩ [("s1", ⟨0, 1⟩)] "s1" "ls\n").effects
      = true ∧
    ioUnderLock (resizePty none [("s1", ⟨0, 1⟩)] "s1" 40 120).effects = true := by
  decide

/-- Claim C8, amended: for every write and resize, the exclusive registry
lock is acquired at the start of the operation and released only at its
end; whenever the session is present, the blocking write/flush/resize
I/O calls are performed while the lock is held. -/
theorem C8_lock_held_across_io (w : WriteWorld) (re : Option String)
    (r : Registry) (id data : String) (rows cols : Nat) (s : PtySession)
    (hs : regLookup id r = some s) :
    (writePty w r id data).effects.head? = some .lockAcquire ∧
    (writePty w r id data).effects.getLast? = some .lockRelease ∧
    ioUnderLock (writePty w r id data).effects = true ∧
    (resizePty re r id rows cols).effects.head? = some .lockAcquire ∧
    (resizePty re r id rows cols).effects.getLast? = some .lockRelease ∧
    ioUnderLock (resizePty re r id rows cols).effects = true := by
  cases hw : w.writeErr <;> cases hf : w.flushErr <;> cases hre : re <;>
    simp [writePty, resizePty, hs, hw, hf, hre, ioUnderLock, ioUnderLockGo,
      ioEffect]

theorem C8_lock_held_across_io_witness :
    ioUnderLock (writePty ⟨none, none⟩ [("s1", ⟨0, 1⟩)] "s1" "pwd\n").effects
      = true ∧
    ioUnderLock (resizePty none [("s1", ⟨0, 1⟩)] "s1" 50 132).effects = true := by
  have h := C8_lock_held_across_io ⟨none, none⟩ none [("s1", ⟨0, 1⟩)] "s1"
    "pwd\n" 50 132 ⟨0, 1⟩ (by decide)
  exact ⟨h.2.2.1, h.2.2.2.2.2⟩

/-- Claim C9, counterexample: the claim says the registry entry owns both
the master side and the child process handle. At this concrete open —
OS handing out master handle 10, writer handle 11, child handle 12 —
the stored entry is `⟨10, 11⟩` and the child handle 12 is not among its
owned handles: `PtySession` has no child field and `_child` is dropped
when `spawn_pty` returns. -/
theorem C9_child_not_owned_counterexample :
    regLookup "s1" (spawnPty ⟨none, none, none, none, 10, 11, 12, 0⟩ [] []
      "s1" none).registry = some ⟨10, 11⟩ ∧
    (⟨none, none, none, none, 10, 11, 12, 0⟩ : SpawnWorld).childHandle = 12 ∧
    (12 : Nat) ∉ ownedHandles ⟨10, 11⟩ := by
  decide

/-- Claim C9, amended: for every open session, the registry entry owns
the master and writer handles of the pseudo-terminal for the channel's
lifetime — the entry is untouched by write and resize and removed only
by close — while the child process handle is not retained: it is not
among the entry's owned handles, and the trace ends by dropping it when
`open` returns. -/
theorem C9_channel_owns_master_writer (w : SpawnWorld)
    (profiles : List ServerProfile) (r : Registry) (sid : String)
    (pid : Option String) (cmd : CmdSpec) (profiles' : List ServerProfile)
    (hres : resolveCommand w.now profiles pid = .ok (cmd, profiles'))
    (h1 : w.openptyErr = none) (h2 : w.spawnErr = none)
    (h3 : w.cloneReaderErr = none) (h4 : w.takeWriterErr = none) :
    regLookup sid (spawnPty w profiles r sid pid).registry =
      some ⟨w.masterHandle, w.writerHandle⟩ ∧
    ownedHandles ⟨w.masterHandle, w.writerHandle⟩ =
      [w.masterHandle, w.writerHandle] ∧
    (w.childHandle ≠ w.masterHandle → w.childHandle ≠ w.writerHandle →
      w.childHandle ∉ ownedHandles ⟨w.masterHandle, w.writerHandle⟩) ∧
    (spawnPty w profiles r sid pid).effects.getLast? = some .dropChild ∧
    (∀ ww data, (writePty ww (spawnPty w profiles r sid pid).registry sid
      data).registry = (spawnPty w profiles r sid pid).registry) ∧
    (∀ re rows cols, (resizePty re (spawnPty w profiles r sid pid).registry
      sid rows cols).registry = (spawnPty w profiles r sid pid).registry) ∧
    regLookup sid (closePty (spawnPty w profiles r sid pid).registry
      sid).registry = none := by
  refine ⟨?_, rfl, ?_, ?_, ?_, ?_, ?_⟩
  · simp [spawnPty, hres, h1, h2, h3, h4, regInsert, regLookup]
  · intro hm hw
    simp [ownedHandles, hm, hw]
  · simp [spawnPty, hres, h1, h2, h3, h4]
  · intro ww data
    exact writePty_registry_eq ww _ sid data
  · intro re rows cols
    exact resizePty_registry_eq re _ sid rows cols
  · simpa [closePty] using regLookup_erase_self sid _

theorem C9_channel_owns_master_writer_witness :
    regLookup "s1" (spawnPty ⟨none, none, none, none, 10, 11, 12, 0⟩ [] []
      "s1" none).registry = some ⟨10, 11⟩ ∧
    (12 : Nat) ∉ ownedHandles ⟨10, 11⟩ ∧
    (spawnPty ⟨none, none, none, none, 10, 11, 12, 0⟩ [] [] "s1"
      none).effects.getLast? = some .dropChild := by
  have h := C9_channel_owns_master_writer ⟨none, none, none, none, 10, 11, 12, 0⟩
    [] [] "s1" none (withTerm (buildCommand none)) [] rfl rfl rfl rfl rfl
  exact ⟨h.1, h.2.2.1 (by decide) (by decide), h.2.2.2.1⟩
